import Mathlib

/-!
Shallow embedding of the luxmedhunter appointment-hunting core:
the data model (src/models/models.py), the record-store scan and update
(src/utils/db.py), the client-side slot filter and reservation API
(src/utils/luxmedapi.py), and the per-request hunt cycle
(src/utils/appointmentshunter.py, `LuxmedAppointmentHunter.hunt_appointments`).

Modelling conventions:
* timestamps are natural numbers (epoch seconds); `datetime.now().timestamp()`
  becomes an explicit `now : Nat` parameter, and a time-of-day is the
  timestamp modulo 86400 seconds;
* the remote portal is an oracle (`LuxmedSession`) mapping each request the
  code can issue to a reply or a transport failure; every network POST/GET the
  code performs is recorded as a `PortalCall` value;
* Python exceptions become `Except ApiError`; the per-appointment
  `try/except` of `hunt_appointments` becomes totality of `huntOne` together
  with an explicit `CycleOutcome`;
* TinyDB tables become a `List Appointment`; `update_appointment` rewrites
  every row whose `id` matches, as `table.update` does.
-/

namespace Luxmed

/-- `AppointmentStatus` from src/models/models.py (active = 1, reserved = 2,
error = 99). -/
inductive AppointmentStatus
  | active
  | reserved
  | error
deriving DecidableEq

/-- Integer value of a status, as stored by pydantic/TinyDB. -/
def AppointmentStatus.toNat : AppointmentStatus → Nat
  | .active => 1
  | .reserved => 2
  | .error => 99

/-- `AppointmentQuery` from src/models/models.py.  Dates are epoch seconds;
`after_hour`/`before_hour` are seconds since midnight. -/
structure AppointmentQuery where
  city_id : Nat
  service_id : Nat
  facilities_ids : List Nat := []
  doctor_ids : List Nat := []
  doctor_blacklist_ids : List Nat := []
  start_date : Option Nat := none
  after_hour : Option Nat := none
  before_hour : Option Nat := none
  lookup_time_days : Nat := 14
deriving DecidableEq

/-- One appointment term (slot) as used by `_parse_visits`,
`create_reservation_lock_term`, `create_reservation` and
`change_reservation` in src/utils/luxmedapi.py: the fields of the provider
term dict the core reads. -/
structure Term where
  doctorId : Nat
  clinicGroupId : Nat
  serviceId : Nat
  clinicId : Nat
  roomId : Nat
  scheduleId : Nat
  dateTimeFrom : Nat
  dateTimeTo : Nat
deriving DecidableEq

def secondsPerDay : Nat := 86400

/-- `term_datetime_from.time()`: the time-of-day part of a term's start. -/
def Term.timeOfDay (t : Term) : Nat := t.dateTimeFrom % secondsPerDay

/-- `Appointment` from src/models/models.py. -/
structure Appointment where
  id : String
  status : AppointmentStatus
  account_email : String
  query : AppointmentQuery
  comment : Option String := none
  next_check : Nat := 0
  check_frequency : Nat
  allow_rescheduling : Bool := false
  term : Option Term := none
deriving DecidableEq

/-- `LuxmedCredentials` from src/models/models.py. -/
structure LuxmedCredentials where
  email : String
  password : String
deriving DecidableEq

/-! ### The record store (src/utils/db.py) -/

/-- The TinyDB `appointments` table. -/
abbrev Database := List Appointment

/-- `get_appointments_to_check` (src/utils/db.py lines 22-26): select the
rows with `status != AppointmentStatus.reserved` and
`next_check < datetime.now().timestamp()`. -/
def get_appointments_to_check (db : Database) (now : Nat) : List Appointment :=
  db.filter fun a =>
    decide (a.status ≠ AppointmentStatus.reserved) && decide (a.next_check < now)

/-- `update_appointment` (src/utils/db.py lines 38-41): TinyDB
`table.update(doc, Query.id == appointment_id)` rewrites every row whose
`id` field matches. -/
def update_appointment (db : Database) (appointment_id : String)
    (appointment : Appointment) : Database :=
  db.map fun row => if row.id = appointment_id then appointment else row

/-! ### Client-side slot filter (`LuxmedApi._parse_visits`) -/

/-- The keep/skip decision of the loop body of `_parse_visits`
(src/utils/luxmedapi.py lines 112-125): each `continue` guard in the order
the code tests them.  A `none` bound mirrors a falsy (`None`) Python
argument, which disables that guard. -/
def keepTerm (clinic_ids doctor_ids doctor_blacklist_ids : List Nat)
    (date_from date_to before_hour after_hour : Option Nat)
    (term : Term) : Bool :=
  if !doctor_ids.isEmpty && !doctor_ids.contains term.doctorId then false
  else if !doctor_blacklist_ids.isEmpty &&
      doctor_blacklist_ids.contains term.doctorId then false
  else if !clinic_ids.isEmpty && !clinic_ids.contains term.clinicGroupId then false
  else if date_from.any fun d => term.dateTimeFrom < d then false
  else if date_to.any fun d => d < term.dateTimeFrom then false
  else if before_hour.any fun b => b < term.timeOfDay then false
  else if after_hour.any fun b => term.timeOfDay < b then false
  else true

/-- `_parse_visits` (src/utils/luxmedapi.py lines 100-134): iterate over
`data["termsForService"]["termsForDays"]`, then over each day's `terms`,
appending the terms that pass every guard, preserving input order. -/
def parse_visits (clinic_ids doctor_ids doctor_blacklist_ids : List Nat)
    (date_from date_to before_hour after_hour : Option Nat)
    (termsForDays : List (List Term)) : List Term :=
  (termsForDays.map fun day_terms =>
    day_terms.filter
      (keepTerm clinic_ids doctor_ids doctor_blacklist_ids
        date_from date_to before_hour after_hour)).flatten

/-! ### Portal API (src/utils/luxmedapi.py) -/

/-- The distinct raise sites of `LuxmedApi` (all `LuxmedApiError` or a
`requests`/`IndexError` exception in the source):
* `transport`: `raise_for_status()` / network failure inside `_get`/`_post`;
* `responseErrors`: a non-empty `errors` array in a provider response;
* `noRelatedVisits`: the guard at the top of `change_reservation`
  (src/utils/luxmedapi.py lines 244-246);
* `emptyValuations`: `lock["valuations"][0]` on an empty list. -/
inductive ApiError
  | transport
  | responseErrors
  | noRelatedVisits
  | emptyValuations
deriving DecidableEq

/-- A failure of the HTTP layer itself (`requests` raising inside
`_get`/`_post`, or `raise_for_status()` on a non-2xx reply).  The
`LuxmedApiError` variants of `ApiError` are raised locally by the client
code and never come out of the network layer. -/
inductive TransportError
  | network
deriving DecidableEq

/-- One entry of `lock["relatedVisits"]`. -/
structure RelatedVisit where
  reservationId : Nat
deriving DecidableEq

/-- The `value` object of a lock-term response: the fields
`create_reservation`/`change_reservation` read. -/
structure Lock where
  temporaryReservationId : Nat
  valuations : List Nat := []
  relatedVisits : List RelatedVisit := []
deriving DecidableEq

/-- Provider response to the term search (`terms/index`). -/
structure SearchResponse where
  errors : List Nat := []
  termsForDays : List (List Term)
deriving DecidableEq

/-- Provider response to `reservation/lockterm`. -/
structure LockResponse where
  errors : List Nat := []
  value : Lock
deriving DecidableEq

/-- Provider response to `reservation/confirm` or `reservation/changeterm`. -/
structure ReservationResponse where
  errors : List Nat := []
deriving DecidableEq

/-- The JSON payload `create_reservation` posts to `reservation/confirm`
(src/utils/luxmedapi.py lines 221-232). -/
structure ConfirmPayload where
  serviceVariantId : Nat
  facilityId : Nat
  roomId : Nat
  scheduleId : Nat
  date : Nat
  doctorId : Nat
  temporaryReservationId : Nat
  valuation : Nat
deriving DecidableEq

/-- The JSON payload `change_reservation` posts to `reservation/changeterm`
(src/utils/luxmedapi.py lines 248-263). -/
structure ChangeTermPayload where
  existingReservationId : Nat
  serviceVariantId : Nat
  facilityId : Nat
  roomId : Nat
  scheduleId : Nat
  date : Nat
  doctorId : Nat
  temporaryReservationId : Nat
  valuation : Nat
  parentReservationId : Nat
deriving DecidableEq

/-- A network request issued by the session (a GET of `terms/index` or a
POST of one of the reservation endpoints), with the payload actually sent. -/
inductive PortalCall
  | search
  | lockTerm (t : Term)
  | confirm (p : ConfirmPayload)
  | changeTerm (p : ChangeTermPayload)
deriving DecidableEq

/-- An authenticated `LuxmedApi` session, abstracted as an oracle giving the
provider's reply (or a transport failure) for each request the code can
issue.  Token refresh (`_ensure_authenticated`) is transparent and folded
into the oracle. -/
structure LuxmedSession where
  email : String
  searchReply : Except TransportError SearchResponse
  lockReply : Term → Except TransportError LockResponse
  confirmReply : ConfirmPayload → Except TransportError ReservationResponse
  changeReply : ChangeTermPayload → Except TransportError ReservationResponse

/-- `get_appointments_terms` (src/utils/luxmedapi.py lines 140-186) composed
with the parameter marshalling of
`LuxmedAppointmentHunter._get_appointments_terms` (which only parses the
query's date/hour strings and defaults missing lists to `[]`): resolve
`date_from` to the explicit start date or today, set
`date_to = date_from + lookup_days` days, issue the search GET, raise on a
non-empty `errors` array, and filter the response through `_parse_visits`.
Also returns the list of network calls issued. -/
def LuxmedSession.get_appointments_terms (session : LuxmedSession)
    (query : AppointmentQuery) (today : Nat) :
    Except ApiError (List Term) × List PortalCall :=
  let date_from := query.start_date.getD today
  let date_to := date_from + query.lookup_time_days * secondsPerDay
  match session.searchReply with
  | .error _ => (.error .transport, [PortalCall.search])
  | .ok visits =>
    if !visits.errors.isEmpty then (.error .responseErrors, [PortalCall.search])
    else
      (.ok (parse_visits query.facilities_ids query.doctor_ids
          query.doctor_blacklist_ids (some date_from) (some date_to)
          query.before_hour query.after_hour visits.termsForDays),
        [PortalCall.search])

/-- `create_reservation_lock_term` (src/utils/luxmedapi.py lines 188-217):
POST the lock request, raise on a non-empty `errors` array, return the
response's `value`. -/
def LuxmedSession.create_reservation_lock_term (session : LuxmedSession)
    (appointment : Term) : Except ApiError Lock × List PortalCall :=
  match session.lockReply appointment with
  | .error _ => (.error .transport, [PortalCall.lockTerm appointment])
  | .ok resp =>
    if !resp.errors.isEmpty then
      (.error .responseErrors, [PortalCall.lockTerm appointment])
    else (.ok resp.value, [PortalCall.lockTerm appointment])

/-- The payload built by `create_reservation` (valuation :=
`lock["valuations"][0]`). -/
def mkConfirmPayload (appointment : Term) (lock : Lock) (valuation : Nat) :
    ConfirmPayload :=
  { serviceVariantId := appointment.serviceId
    facilityId := appointment.clinicId
    roomId := appointment.roomId
    scheduleId := appointment.scheduleId
    date := appointment.dateTimeFrom
    doctorId := appointment.doctorId
    temporaryReservationId := lock.temporaryReservationId
    valuation := valuation }

/-- `create_reservation` (src/utils/luxmedapi.py lines 219-240): build the
confirm payload (`lock["valuations"][0]` raises on an empty list before any
network call), POST it, raise on a non-empty `errors` array. -/
def LuxmedSession.create_reservation (session : LuxmedSession)
    (appointment : Term) (lock : Lock) :
    Except ApiError ReservationResponse × List PortalCall :=
  match lock.valuations with
  | [] => (.error .emptyValuations, [])
  | v :: _ =>
    match session.confirmReply (mkConfirmPayload appointment lock v) with
    | .error _ => (.error .transport, [PortalCall.confirm (mkConfirmPayload appointment lock v)])
    | .ok r =>
      if !r.errors.isEmpty then
        (.error .responseErrors, [PortalCall.confirm (mkConfirmPayload appointment lock v)])
      else (.ok r, [PortalCall.confirm (mkConfirmPayload appointment lock v)])

/-- The payload built by `change_reservation`: both
`existingReservationId` and `parentReservationId` are the first related
visit's `reservationId`. -/
def mkChangeTermPayload (appointment : Term) (lock : Lock)
    (relatedVisit : RelatedVisit) (valuation : Nat) : ChangeTermPayload :=
  { existingReservationId := relatedVisit.reservationId
    serviceVariantId := appointment.serviceId
    facilityId := appointment.clinicId
    roomId := appointment.roomId
    scheduleId := appointment.scheduleId
    date := appointment.dateTimeFrom
    doctorId := appointment.doctorId
    temporaryReservationId := lock.temporaryReservationId
    valuation := valuation
    parentReservationId := relatedVisit.reservationId }

/-- `change_reservation` (src/utils/luxmedapi.py lines 242-271): raise
`LuxmedApiError` if the lock's `relatedVisits` list is empty or absent
(before any network call); otherwise build the change-term payload from the
first related visit (`lock["valuations"][0]` raises on an empty list, also
before the POST), POST it, and raise on a non-empty `errors` array. -/
def LuxmedSession.change_reservation (session : LuxmedSession)
    (appointment : Term) (lock : Lock) :
    Except ApiError ReservationResponse × List PortalCall :=
  match lock.relatedVisits with
  | [] => (.error .noRelatedVisits, [])
  | visit :: _ =>
    match lock.valuations with
    | [] => (.error .emptyValuations, [])
    | v :: _ =>
      match session.changeReply (mkChangeTermPayload appointment lock visit v) with
      | .error _ => (.error .transport, [PortalCall.changeTerm (mkChangeTermPayload appointment lock visit v)])
      | .ok r =>
        if !r.errors.isEmpty then
          (.error .responseErrors, [PortalCall.changeTerm (mkChangeTermPayload appointment lock visit v)])
        else (.ok r, [PortalCall.changeTerm (mkChangeTermPayload appointment lock visit v)])

/-! ### The hunt cycle (src/utils/appointmentshunter.py) -/

/-- The process environment of `LuxmedAppointmentHunter`: which account
emails resolve to a working authenticated session.  `none` models the
exceptions `_get_session` can raise before any portal call for the request
(credentials missing in the database, or authentication failure while
constructing `LuxmedApi`). -/
structure HunterEnv where
  sessions : String → Option LuxmedSession

/-- How one iteration of the `for appointment in appointments` loop of
`hunt_appointments` ended.  The first four and `reserveFailed` are
exceptions swallowed by the per-appointment `except` clause;
`policyViolation` is the explicit ERROR transition (lines 89-94);
`noTerms` and `reserved` are the two success paths. -/
inductive CycleOutcome
  | noSession
  | searchFailed (e : ApiError)
  | noTerms
  | lockFailed (e : ApiError)
  | policyViolation
  | reserveFailed (e : ApiError)
  | reserved
deriving DecidableEq

/-- Outcomes that the source reaches only by an exception escaping to the
per-appointment `except` handler. -/
def CycleOutcome.isFailure : CycleOutcome → Bool
  | .noSession => true
  | .searchFailed _ => true
  | .lockFailed _ => true
  | .reserveFailed _ => true
  | _ => false

/-- Result of one loop iteration of `hunt_appointments`:
`update = some a` iff the iteration called `update_appointment` (with the
mutated appointment `a`); `calls` are the portal requests issued, in
order. -/
structure CycleResult where
  update : Option Appointment
  calls : List PortalCall
  outcome : CycleOutcome
deriving DecidableEq

/-- The body of the `for appointment in appointments` loop of
`hunt_appointments` (src/utils/appointmentshunter.py lines 74-120):
resolve a session, search terms, and if any term is found take the first
one (`terms[0]`), lock it, branch on `relatedVisits` and
`allow_rescheduling`, and on a successful confirm/reschedule persist
status `reserved`, `next_check = 0` and the term snapshot (the
`json.loads(json.dumps(term))` round-trip is value-preserving and modelled
as the term itself); with no terms persist
`next_check = now + check_frequency`.  Any exception leaves the
appointment row untouched. -/
def huntOne (env : HunterEnv) (now : Nat) (appointment : Appointment) :
    CycleResult :=
  match env.sessions appointment.account_email with
  | none => ⟨none, [], .noSession⟩
  | some session =>
    match session.get_appointments_terms appointment.query now with
    | (.error e, calls) => ⟨none, calls, .searchFailed e⟩
    | (.ok [], calls) =>
      ⟨some { appointment with next_check := now + appointment.check_frequency },
        calls, .noTerms⟩
    | (.ok (term :: _restTerms), searchCalls) =>
      match session.create_reservation_lock_term term with
      | (.error e, lockCalls) =>
        ⟨none, searchCalls ++ lockCalls, .lockFailed e⟩
      | (.ok lock, lockCalls) =>
        if lock.relatedVisits.length ≠ 0 then
          if !appointment.allow_rescheduling then
            ⟨some { appointment with status := .error, next_check := 0 },
              searchCalls ++ lockCalls, .policyViolation⟩
          else
            match session.change_reservation term lock with
            | (.error e, changeCalls) =>
              ⟨none, searchCalls ++ lockCalls ++ changeCalls, .reserveFailed e⟩
            | (.ok _, changeCalls) =>
              ⟨some { appointment with status := .reserved, next_check := 0, term := some term }, searchCalls ++ lockCalls ++ changeCalls, .reserved⟩
        else
          match session.create_reservation term lock with
          | (.error e, confirmCalls) =>
            ⟨none, searchCalls ++ lockCalls ++ confirmCalls, .reserveFailed e⟩
          | (.ok _, confirmCalls) =>
            ⟨some { appointment with status := .reserved, next_check := 0, term := some term }, searchCalls ++ lockCalls ++ confirmCalls, .reserved⟩

/-- One line of the batch's processing record: which appointment row was
handled, the portal calls made for it, and how its cycle ended. -/
structure HuntTraceEntry where
  appointmentId : String
  calls : List PortalCall
  outcome : CycleOutcome
deriving DecidableEq

/-- The `for appointment in appointments` loop: each iteration runs inside
its own exception boundary, so every element of the scanned list is
processed regardless of earlier failures; `update_appointment` writes go
back to the table as they happen. -/
def huntLoop (env : HunterEnv) (now : Nat) :
    List Appointment → Database → Database × List HuntTraceEntry
  | [], db => (db, [])
  | appointment :: rest, db =>
    let r := huntOne env now appointment
    let db' := match r.update with
      | none => db
      | some a => update_appointment db appointment.id a
    let result := huntLoop env now rest db'
    (result.1, ⟨appointment.id, r.calls, r.outcome⟩ :: result.2)

/-- `hunt_appointments` (src/utils/appointmentshunter.py lines 67-123):
snapshot the due-request scan, then iterate the per-request cycle over it. -/
def hunt_appointments (env : HunterEnv) (now : Nat) (db : Database) :
    Database × List HuntTraceEntry :=
  huntLoop env now (get_appointments_to_check db now) db

/-! ### Reachable appointment states -/

/-- The states a persisted `Appointment` row can take under the scheduler:
it is created by an operator (src/cli.py, src/create-appointment.py) with
`status = AppointmentStatus.active` and `term` unset, and afterwards is
mutated only by `update_appointment` calls from `hunt_appointments`, which
invokes the cycle only on rows returned by `get_appointments_to_check`
(hence with `status ≠ reserved`). -/
inductive ReachableAppointment : Appointment → Prop
  | created (a : Appointment) (hstatus : a.status = .active)
      (hterm : a.term = none) : ReachableAppointment a
  | checked (a : Appointment) (env : HunterEnv) (now : Nat)
      (ha : ReachableAppointment a) (hdue : a.status ≠ .reserved)
      (a' : Appointment) (hstep : (huntOne env now a).update = some a') :
      ReachableAppointment a'

/-! ### Concrete fixtures for counterexamples and witnesses -/

def sampleQuery : AppointmentQuery :=
  { city_id := 8, service_id := 9242 }

def termEarly : Term :=
  { doctorId := 11, clinicGroupId := 21, serviceId := 9242, clinicId := 31,
    roomId := 41, scheduleId := 51, dateTimeFrom := 1500, dateTimeTo := 1800 }

def termLate : Term :=
  { doctorId := 12, clinicGroupId := 22, serviceId := 9242, clinicId := 32,
    roomId := 42, scheduleId := 52, dateTimeFrom := 2000, dateTimeTo := 2300 }

def freeLock : Lock :=
  { temporaryReservationId := 7, valuations := [100] }

def heldLock : Lock :=
  { temporaryReservationId := 7, valuations := [100],
    relatedVisits := [{ reservationId := 909 }] }

/-- A session whose search finds `[termLate, termEarly]` (later start first,
as the provider returned them), whose lock carries no related visits, and
whose confirm/change replies succeed. -/
def confirmSession : LuxmedSession :=
  { email := "user@example.com"
    searchReply := .ok { termsForDays := [[termLate, termEarly]] }
    lockReply := fun _ => .ok { value := freeLock }
    confirmReply := fun _ => .ok {}
    changeReply := fun _ => .ok {} }

def confirmEnv : HunterEnv :=
  { sessions := fun e =>
      if e = "user@example.com" then some confirmSession else none }

/-- Same portal behaviour but the lock reveals one related visit. -/
def heldSession : LuxmedSession :=
  { email := "user@example.com"
    searchReply := .ok { termsForDays := [[termLate, termEarly]] }
    lockReply := fun _ => .ok { value := heldLock }
    confirmReply := fun _ => .ok {}
    changeReply := fun _ => .ok {} }

def heldEnv : HunterEnv :=
  { sessions := fun e =>
      if e = "user@example.com" then some heldSession else none }

/-- An environment with no working session for any account. -/
def emptyEnv : HunterEnv := { sessions := fun _ => none }

def errorApp : Appointment :=
  { id := "err-1", status := .error, account_email := "user@example.com",
    query := sampleQuery, check_frequency := 300 }

def activeApp : Appointment :=
  { id := "act-1", status := .active, account_email := "user@example.com",
    query := sampleQuery, check_frequency := 300 }

def reschedApp : Appointment :=
  { id := "rsc-1", status := .active, account_email := "user@example.com",
    query := sampleQuery, check_frequency := 300, allow_rescheduling := true }

def reservedApp : Appointment :=
  { id := "rsv-1", status := .reserved, account_email := "user@example.com",
    query := sampleQuery, check_frequency := 300, next_check := 0,
    term := some termEarly }

def boundaryApp : Appointment :=
  { id := "bdy-1", status := .active, account_email := "user@example.com",
    query := sampleQuery, next_check := 1000, check_frequency := 300 }

/-- Today's date D for the 14-day lookup-window scenario. -/
def lookupToday : Nat := 1000000

def termD5 : Term :=
  { doctorId := 13, clinicGroupId := 23, serviceId := 9242, clinicId := 33,
    roomId := 43, scheduleId := 53,
    dateTimeFrom := lookupToday + 5 * secondsPerDay,
    dateTimeTo := lookupToday + 5 * secondsPerDay + 1800 }

def termD20 : Term :=
  { doctorId := 14, clinicGroupId := 24, serviceId := 9242, clinicId := 34,
    roomId := 44, scheduleId := 54,
    dateTimeFrom := lookupToday + 20 * secondsPerDay,
    dateTimeTo := lookupToday + 20 * secondsPerDay + 1800 }

def lookupSession : LuxmedSession :=
  { email := "user@example.com"
    searchReply := .ok { termsForDays := [[termD20, termD5]] }
    lockReply := fun _ => .ok { value := freeLock }
    confirmReply := fun _ => .ok {}
    changeReply := fun _ => .ok {} }

def lookupEnv : HunterEnv :=
  { sessions := fun e =>
      if e = "user@example.com" then some lookupSession else none }

def lookupApp : Appointment :=
  { id := "lkp-1", status := .active, account_email := "user@example.com",
    query := sampleQuery, check_frequency := 300 }

def noTermsSession : LuxmedSession :=
  { email := "user@example.com"
    searchReply := .ok { termsForDays := [] }
    lockReply := fun _ => .ok { value := freeLock }
    confirmReply := fun _ => .ok {}
    changeReply := fun _ => .ok {} }

def noTermsEnv : HunterEnv :=
  { sessions := fun e =>
      if e = "user@example.com" then some noTermsSession else none }


/-! ### Helper lemmas -/

theorem mem_get_appointments_to_check (db : Database) (now : Nat)
    (a : Appointment) :
    a ∈ get_appointments_to_check db now ↔
      a ∈ db ∧ a.status ≠ AppointmentStatus.reserved ∧ a.next_check < now := by
  simp [get_appointments_to_check, List.mem_filter, and_assoc]

theorem get_appointments_terms_snd (session : LuxmedSession)
    (query : AppointmentQuery) (today : Nat) :
    (session.get_appointments_terms query today).2 = [PortalCall.search] := by
  unfold LuxmedSession.get_appointments_terms
  split
  · rfl
  · split <;> rfl

theorem create_reservation_lock_term_snd (session : LuxmedSession) (t : Term) :
    (session.create_reservation_lock_term t).2 = [PortalCall.lockTerm t] := by
  unfold LuxmedSession.create_reservation_lock_term
  split
  · rfl
  · split <;> rfl

theorem create_reservation_snd_shape (session : LuxmedSession) (t : Term)
    (lock : Lock) :
    (session.create_reservation t lock).2 = [] ∨
      ∃ p, (session.create_reservation t lock).2 = [PortalCall.confirm p] := by
  unfold LuxmedSession.create_reservation
  split
  · exact Or.inl rfl
  · split
    · exact Or.inr ⟨_, rfl⟩
    · split <;> exact Or.inr ⟨_, rfl⟩

theorem change_reservation_snd_shape (session : LuxmedSession) (t : Term)
    (lock : Lock) :
    (session.change_reservation t lock).2 = [] ∨
      ∃ p, (session.change_reservation t lock).2 = [PortalCall.changeTerm p] := by
  unfold LuxmedSession.change_reservation
  split
  · exact Or.inl rfl
  · split
    · exact Or.inl rfl
    · split
      · exact Or.inr ⟨_, rfl⟩
      · split <;> exact Or.inr ⟨_, rfl⟩

theorem huntLoop_trace_ids (env : HunterEnv) (now : Nat)
    (l : List Appointment) :
    ∀ db : Database,
      ((huntLoop env now l db).2).map HuntTraceEntry.appointmentId =
        l.map Appointment.id := by
  induction l with
  | nil => intro db; rfl
  | cons a rest ih => intro db; simp [huntLoop, ih]

theorem huntLoop_keeps_row (env : HunterEnv) (now : Nat) (a : Appointment)
    (l : List Appointment) :
    ∀ db : Database, (∀ b ∈ l, b.id ≠ a.id) → a ∈ db →
      a ∈ (huntLoop env now l db).1 := by
  induction l with
  | nil => intro db _ ha; simpa [huntLoop] using ha
  | cons b rest ih =>
    intro db hid ha
    have hb : b.id ≠ a.id := hid b (List.mem_cons_self b rest)
    have hrest : ∀ c ∈ rest, c.id ≠ a.id := fun c hc =>
      hid c (List.mem_cons_of_mem b hc)
    have hstep : ∀ db' : Database, a ∈ db' →
        a ∈ (match (huntOne env now b).update with
          | none => db'
          | some x => update_appointment db' b.id x) := by
      intro db' ha'
      cases (huntOne env now b).update with
      | none => exact ha'
      | some x =>
        simp only [update_appointment, List.mem_map]
        refine ⟨a, ha', ?_⟩
        rw [if_neg (fun h => hb h.symm)]
    simpa [huntLoop] using ih _ hrest (hstep db ha)

theorem keepTerm_iff (clinic_ids doctor_ids doctor_blacklist_ids : List Nat)
    (date_from date_to before_hour after_hour : Option Nat) (t : Term) :
    keepTerm clinic_ids doctor_ids doctor_blacklist_ids
        date_from date_to before_hour after_hour t = true ↔
      (doctor_ids = [] ∨ t.doctorId ∈ doctor_ids)
      ∧ t.doctorId ∉ doctor_blacklist_ids
      ∧ (clinic_ids = [] ∨ t.clinicGroupId ∈ clinic_ids)
      ∧ (∀ d, date_from = some d → d ≤ t.dateTimeFrom)
      ∧ (∀ d, date_to = some d → t.dateTimeFrom ≤ d)
      ∧ (∀ b, before_hour = some b → t.timeOfDay ≤ b)
      ∧ (∀ b, after_hour = some b → b ≤ t.timeOfDay) := by
  unfold keepTerm
  rcases date_from with _ | df <;> rcases date_to with _ | dt <;>
    rcases before_hour with _ | bh <;> rcases after_hour with _ | ah <;>
    rcases doctor_ids with _ | ⟨d, ds⟩ <;>
    rcases doctor_blacklist_ids with _ | ⟨x, xs⟩ <;>
    rcases clinic_ids with _ | ⟨c, cs⟩ <;>
    simp [Option.any]

theorem mem_parse_visits (clinic_ids doctor_ids doctor_blacklist_ids : List Nat)
    (date_from date_to before_hour after_hour : Option Nat)
    (termsForDays : List (List Term)) (t : Term) :
    t ∈ parse_visits clinic_ids doctor_ids doctor_blacklist_ids
        date_from date_to before_hour after_hour termsForDays ↔
      t ∈ termsForDays.flatten ∧
        keepTerm clinic_ids doctor_ids doctor_blacklist_ids
          date_from date_to before_hour after_hour t = true := by
  unfold parse_visits
  rw [List.mem_flatten]
  constructor
  · rintro ⟨l, hl, htl⟩
    obtain ⟨day, hday, rfl⟩ := List.mem_map.mp hl
    obtain ⟨hmem, hkeep⟩ := List.mem_filter.mp htl
    exact ⟨List.mem_flatten.mpr ⟨day, hday, hmem⟩, hkeep⟩
  · rintro ⟨hflat, hkeep⟩
    obtain ⟨day, hday, hmem⟩ := List.mem_flatten.mp hflat
    exact ⟨day.filter _, List.mem_map.mpr ⟨day, hday, rfl⟩,
      List.mem_filter.mpr ⟨hmem, hkeep⟩⟩

theorem get_appointments_terms_ok_keep (session : LuxmedSession)
    (query : AppointmentQuery) (today : Nat) (terms : List Term)
    (h : (session.get_appointments_terms query today).1 = Except.ok terms) :
    ∀ t ∈ terms,
      keepTerm query.facilities_ids query.doctor_ids query.doctor_blacklist_ids
        (some (query.start_date.getD today))
        (some (query.start_date.getD today + query.lookup_time_days * secondsPerDay))
        query.before_hour query.after_hour t = true := by
  unfold LuxmedSession.get_appointments_terms at h
  split at h
  · exact absurd h (by simp)
  · split at h
    · exact absurd h (by simp)
    · simp only [Except.ok.injEq] at h
      subst h
      intro t ht
      exact ((mem_parse_visits _ _ _ _ _ _ _ _ _).mp ht).2

theorem huntOne_spec (env : HunterEnv) (now : Nat) (a : Appointment) :
    ((huntOne env now a).update = none ∧
        (huntOne env now a).outcome.isFailure = true)
    ∨ ((huntOne env now a).update =
          some { a with next_check := now + a.check_frequency } ∧
        (huntOne env now a).outcome = .noTerms)
    ∨ ((huntOne env now a).update =
          some { a with status := .error, next_check := 0 } ∧
        (huntOne env now a).outcome = .policyViolation)
    ∨ (∃ t, (huntOne env now a).update =
          some { a with status := .reserved, next_check := 0, term := some t } ∧
        (huntOne env now a).outcome = .reserved) := by
  unfold huntOne
  split
  · exact Or.inl ⟨rfl, rfl⟩
  · split
    · exact Or.inl ⟨rfl, rfl⟩
    · exact Or.inr (Or.inl ⟨rfl, rfl⟩)
    · split
      · exact Or.inl ⟨rfl, rfl⟩
      · split
        · split
          · exact Or.inr (Or.inr (Or.inl ⟨rfl, rfl⟩))
          · split
            · exact Or.inl ⟨rfl, rfl⟩
            · exact Or.inr (Or.inr (Or.inr ⟨_, rfl, rfl⟩))
        · split
          · exact Or.inl ⟨rfl, rfl⟩
          · exact Or.inr (Or.inr (Or.inr ⟨_, rfl, rfl⟩))

theorem huntOne_calls_shape (env : HunterEnv) (now : Nat) (a : Appointment) :
    (env.sessions a.account_email = none ∧ (huntOne env now a).calls = [])
    ∨ (∃ session, env.sessions a.account_email = some session
        ∧ ((∃ e, (session.get_appointments_terms a.query now).1 = Except.error e)
            ∨ (session.get_appointments_terms a.query now).1 = Except.ok [])
        ∧ (huntOne env now a).calls = [PortalCall.search])
    ∨ ∃ session term rest tail,
        env.sessions a.account_email = some session
        ∧ (session.get_appointments_terms a.query now).1 =
            Except.ok (term :: rest)
        ∧ (huntOne env now a).calls =
            PortalCall.search :: PortalCall.lockTerm term :: tail
        ∧ (tail = [] ∨ (∃ p, tail = [PortalCall.confirm p])
            ∨ ∃ p, tail = [PortalCall.changeTerm p]) := by
  unfold huntOne
  split
  next hsess => exact Or.inl ⟨hsess, rfl⟩
  next session hsess =>
    split
    next e calls heq =>
      refine Or.inr (Or.inl ⟨session, hsess, Or.inl ⟨e, by rw [heq]⟩, ?_⟩)
      have h2 := get_appointments_terms_snd session a.query now
      rw [heq] at h2
      exact h2
    next calls heq =>
      refine Or.inr (Or.inl ⟨session, hsess, Or.inr (by rw [heq]), ?_⟩)
      have h2 := get_appointments_terms_snd session a.query now
      rw [heq] at h2
      exact h2
    next term restTerms searchCalls heq =>
      have hsc : searchCalls = [PortalCall.search] := by
        have h2 := get_appointments_terms_snd session a.query now
        rw [heq] at h2
        exact h2
      have hok : (session.get_appointments_terms a.query now).1 =
          Except.ok (term :: restTerms) := by rw [heq]
      split
      next e lockCalls heq2 =>
        have hlc : lockCalls = [PortalCall.lockTerm term] := by
          have h2 := create_reservation_lock_term_snd session term
          rw [heq2] at h2
          exact h2
        refine Or.inr (Or.inr ⟨session, term, restTerms, [], hsess, hok, ?_, Or.inl rfl⟩)
        show searchCalls ++ lockCalls = _
        rw [hsc, hlc]
        rfl
      next lock lockCalls heq2 =>
        have hlc : lockCalls = [PortalCall.lockTerm term] := by
          have h2 := create_reservation_lock_term_snd session term
          rw [heq2] at h2
          exact h2
        split
        · split
          · refine Or.inr (Or.inr ⟨session, term, restTerms, [], hsess, hok, ?_, Or.inl rfl⟩)
            show searchCalls ++ lockCalls = _
            rw [hsc, hlc]
            rfl
          · split
            next e changeCalls heq3 =>
              have hshape := change_reservation_snd_shape session term lock
              rw [heq3] at hshape
              refine Or.inr (Or.inr ⟨session, term, restTerms, changeCalls, hsess, hok, ?_, ?_⟩)
              · show (searchCalls ++ lockCalls) ++ changeCalls = _
                rw [hsc, hlc]
                rfl
              · exact hshape.elim (fun h => Or.inl h) (fun h => Or.inr (Or.inr h))
            next r changeCalls heq3 =>
              have hshape := change_reservation_snd_shape session term lock
              rw [heq3] at hshape
              refine Or.inr (Or.inr ⟨session, term, restTerms, changeCalls, hsess, hok, ?_, ?_⟩)
              · show (searchCalls ++ lockCalls) ++ changeCalls = _
                rw [hsc, hlc]
                rfl
              · exact hshape.elim (fun h => Or.inl h) (fun h => Or.inr (Or.inr h))
        · split
          next e confirmCalls heq3 =>
            have hshape := create_reservation_snd_shape session term lock
            rw [heq3] at hshape
            refine Or.inr (Or.inr ⟨session, term, restTerms, confirmCalls, hsess, hok, ?_, ?_⟩)
            · show (searchCalls ++ lockCalls) ++ confirmCalls = _
              rw [hsc, hlc]
              rfl
            · exact hshape.elim (fun h => Or.inl h) (fun h => Or.inr (Or.inl h))
          next r confirmCalls heq3 =>
            have hshape := create_reservation_snd_shape session term lock
            rw [heq3] at hshape
            refine Or.inr (Or.inr ⟨session, term, restTerms, confirmCalls, hsess, hok, ?_, ?_⟩)
            · show (searchCalls ++ lockCalls) ++ confirmCalls = _
              rw [hsc, hlc]
              rfl
            · exact hshape.elim (fun h => Or.inl h) (fun h => Or.inr (Or.inl h))

theorem huntOne_locks_head (env : HunterEnv) (now : Nat) (a : Appointment)
    (session : LuxmedSession) (t : Term) (rest : List Term)
    (hsess : env.sessions a.account_email = some session)
    (hterms : (session.get_appointments_terms a.query now).1 =
      Except.ok (t :: rest)) :
    PortalCall.lockTerm t ∈ (huntOne env now a).calls
    ∧ ∀ u, PortalCall.lockTerm u ∈ (huntOne env now a).calls → u = t := by
  rcases huntOne_calls_shape env now a with
    ⟨h1, _⟩ | ⟨s, hs, hbad, _⟩ | ⟨s, term, r0, tail, hs, hok, hcalls, htail⟩
  · rw [h1] at hsess
    cases hsess
  · rw [hs] at hsess
    injection hsess with hsess
    subst hsess
    rcases hbad with ⟨e, hb⟩ | hb <;> rw [hterms] at hb <;> cases hb
  · rw [hs] at hsess
    injection hsess with hsess
    subst hsess
    rw [hterms] at hok
    injection hok with hok
    injection hok with hok1 hok2
    subst hok1
    constructor
    · rw [hcalls]
      exact List.mem_cons_of_mem _ (List.mem_cons_self _ _)
    · intro u hu
      rw [hcalls] at hu
      rcases htail with rfl | ⟨p, rfl⟩ | ⟨p, rfl⟩ <;> simp at hu <;> exact hu

theorem change_reservation_fst_no_guard (session : LuxmedSession) (t : Term)
    (lock : Lock) (h : lock.relatedVisits ≠ []) :
    (session.change_reservation t lock).1 ≠
      Except.error ApiError.noRelatedVisits := by
  unfold LuxmedSession.change_reservation
  split
  next heq => exact absurd heq h
  next visit vs heq =>
    split
    · simp
    · split
      · simp
      · split <;> simp

theorem create_reservation_fst_no_guard (session : LuxmedSession) (t : Term)
    (lock : Lock) :
    (session.create_reservation t lock).1 ≠
      Except.error ApiError.noRelatedVisits := by
  unfold LuxmedSession.create_reservation
  split
  · simp
  · split
    · simp
    · split <;> simp

/-! ### C1 -/

/-- C1 counterexample: an Error-status request with `next_check = 0` is
selected by the due-request scan of a later run, portal calls are made for
it, and its persisted state is even mutated again. -/
theorem error_request_rechecked_cx :
    errorApp.status = AppointmentStatus.error
    ∧ errorApp ∈ get_appointments_to_check [errorApp] 1000
    ∧ (huntOne confirmEnv 1000 errorApp).calls ≠ []
    ∧ (huntOne confirmEnv 1000 errorApp).update ≠ none := by
  decide

/-- C1 (amended): the Error status is not terminal: the due-request scan
excludes only Reserved, so an Error-status request whose `next_check` is
below the scan time is selected by `get_appointments_to_check` and is
processed again by `hunt_appointments` (an entry for it appears in the
batch's processing record). -/
theorem error_status_requests_are_rescanned
    (db : Database) (now : Nat) (a : Appointment) (env : HunterEnv)
    (hmem : a ∈ db) (herr : a.status = AppointmentStatus.error)
    (hdue : a.next_check < now) :
    a ∈ get_appointments_to_check db now
    ∧ ∃ e ∈ (hunt_appointments env now db).2, e.appointmentId = a.id := by
  have hin : a ∈ get_appointments_to_check db now :=
    (mem_get_appointments_to_check db now a).mpr
      ⟨hmem, by rw [herr]; exact fun hc => AppointmentStatus.noConfusion hc,
        hdue⟩
  refine ⟨hin, ?_⟩
  have hmm : a.id ∈
      ((huntLoop env now (get_appointments_to_check db now) db).2).map
        HuntTraceEntry.appointmentId := by
    rw [huntLoop_trace_ids]
    exact List.mem_map_of_mem _ hin
  obtain ⟨e, he, heq⟩ := List.mem_map.mp hmm
  exact ⟨e, he, heq⟩

theorem error_status_requests_are_rescanned_witness :
    errorApp ∈ [errorApp]
    ∧ errorApp.status = AppointmentStatus.error
    ∧ errorApp.next_check < 1000
    ∧ (errorApp ∈ get_appointments_to_check [errorApp] 1000
       ∧ ∃ e ∈ (hunt_appointments confirmEnv 1000 [errorApp]).2,
           e.appointmentId = errorApp.id) :=
  ⟨by decide, by decide, by decide,
    error_status_requests_are_rescanned [errorApp] 1000 errorApp confirmEnv
      (by decide) (by decide) (by decide)⟩

/-! ### C2 -/

/-- C2 counterexample: a request with `status = Active` and
`nextCheckAt = now` satisfies the claim's due-condition
(`status != Reserved` and `nextCheckAt <= now`), yet the scan's strict
comparison (`next_check < now`) skips it: the batch is empty and the
request is not processed. -/
theorem scan_boundary_cx :
    boundaryApp.status ≠ AppointmentStatus.reserved
    ∧ boundaryApp.next_check ≤ 1000
    ∧ get_appointments_to_check [boundaryApp] 1000 = []
    ∧ hunt_appointments confirmEnv 1000 [boundaryApp] = ([boundaryApp], []) := by
  decide

/-- C2 (amended): `hunt_appointments` processes exactly the requests with
`status != Reserved` and `nextCheckAt` strictly below the scan time (the
scan comparison is `<`, so a request whose `nextCheckAt` equals `now`
waits for the next tick); in particular a Reserved request, whatever its
`nextCheckAt`, is never scanned, no portal call is made for it, and its
persisted row survives the batch unchanged. -/
theorem scan_strict_and_reserved_untouched
    (db : Database) (now : Nat) (a : Appointment) (env : HunterEnv)
    (hmem : a ∈ db) (hres : a.status = AppointmentStatus.reserved)
    (hids : ∀ b ∈ db, b.id = a.id → b = a) :
    (∀ b, b ∈ get_appointments_to_check db now ↔
        b ∈ db ∧ b.status ≠ AppointmentStatus.reserved ∧ b.next_check < now)
    ∧ a ∉ get_appointments_to_check db now
    ∧ (∀ e ∈ (hunt_appointments env now db).2, e.appointmentId ≠ a.id)
    ∧ a ∈ (hunt_appointments env now db).1 := by
  have hnotin : a ∉ get_appointments_to_check db now := by
    intro hc
    exact ((mem_get_appointments_to_check db now a).mp hc).2.1 hres
  have hnotid : ∀ b ∈ get_appointments_to_check db now, b.id ≠ a.id := by
    intro b hb hbid
    have hbdb : b ∈ db := ((mem_get_appointments_to_check db now b).mp hb).1
    have hba : b = a := hids b hbdb hbid
    subst hba
    exact hnotin hb
  refine ⟨fun b => mem_get_appointments_to_check db now b, hnotin, ?_, ?_⟩
  · intro e he heid
    have hmm : e.appointmentId ∈
        ((huntLoop env now (get_appointments_to_check db now) db).2).map
          HuntTraceEntry.appointmentId := List.mem_map_of_mem _ he
    rw [huntLoop_trace_ids] at hmm
    obtain ⟨b, hb, hbid⟩ := List.mem_map.mp hmm
    exact hnotid b hb (by rw [hbid, heid])
  · exact huntLoop_keeps_row env now a _ db hnotid hmem

theorem scan_strict_and_reserved_untouched_witness :
    reservedApp ∈ [reservedApp, errorApp]
    ∧ reservedApp.status = AppointmentStatus.reserved
    ∧ (∀ b ∈ [reservedApp, errorApp], b.id = reservedApp.id →
        b = reservedApp)
    ∧ ((∀ b, b ∈ get_appointments_to_check [reservedApp, errorApp] 1000 ↔
          b ∈ [reservedApp, errorApp]
            ∧ b.status ≠ AppointmentStatus.reserved ∧ b.next_check < 1000)
       ∧ reservedApp ∉ get_appointments_to_check [reservedApp, errorApp] 1000
       ∧ (∀ e ∈ (hunt_appointments confirmEnv 1000 [reservedApp, errorApp]).2,
            e.appointmentId ≠ reservedApp.id)
       ∧ reservedApp ∈ (hunt_appointments confirmEnv 1000 [reservedApp, errorApp]).1) :=
  ⟨by decide, by decide, by decide,
    scan_strict_and_reserved_untouched [reservedApp, errorApp] 1000
      reservedApp confirmEnv (by decide) (by decide) (by decide)⟩

/-! ### C3 -/

/-- C3 counterexample: both returned slots qualify and the earlier-starting
slot is second in the provider's order; the cycle locks the later-starting
first slot, not the chronologically earliest one. -/
theorem chosen_not_earliest_cx :
    (confirmSession.get_appointments_terms sampleQuery 1000).1 =
      Except.ok [termLate, termEarly]
    ∧ termEarly.dateTimeFrom < termLate.dateTimeFrom
    ∧ PortalCall.lockTerm termLate ∈ (huntOne confirmEnv 1000 activeApp).calls
    ∧ PortalCall.lockTerm termEarly ∉
        (huntOne confirmEnv 1000 activeApp).calls :=
  ⟨rfl, by decide, by decide, by decide⟩

/-- C3 (amended): the slot the cycle locks is `terms[0]`, the first element
of the qualifying list in the provider's response order, which need not be
the earliest-starting qualifying slot. -/
theorem locks_first_qualifying_slot
    (env : HunterEnv) (now : Nat) (a : Appointment)
    (session : LuxmedSession) (t : Term) (rest : List Term)
    (hsess : env.sessions a.account_email = some session)
    (hterms : (session.get_appointments_terms a.query now).1 =
      Except.ok (t :: rest)) :
    PortalCall.lockTerm t ∈ (huntOne env now a).calls
    ∧ ∀ u, PortalCall.lockTerm u ∈ (huntOne env now a).calls → u = t :=
  huntOne_locks_head env now a session t rest hsess hterms

theorem locks_first_qualifying_slot_witness :
    confirmEnv.sessions activeApp.account_email = some confirmSession
    ∧ (confirmSession.get_appointments_terms activeApp.query 1000).1 =
        Except.ok [termLate, termEarly]
    ∧ (PortalCall.lockTerm termLate ∈ (huntOne confirmEnv 1000 activeApp).calls
       ∧ ∀ u, PortalCall.lockTerm u ∈ (huntOne confirmEnv 1000 activeApp).calls →
           u = termLate) :=
  ⟨rfl, rfl,
    locks_first_qualifying_slot confirmEnv 1000 activeApp confirmSession
      termLate [termEarly] rfl rfl⟩

/-! ### C8 -/

/-- C8: with zero qualifying slots the cycle persists only a new
`next_check = now + check_frequency`, leaving status and term unchanged,
and this outcome is not a failure. -/
theorem no_terms_resets_next_check
    (env : HunterEnv) (now : Nat) (a : Appointment)
    (session : LuxmedSession)
    (hsess : env.sessions a.account_email = some session)
    (hterms : (session.get_appointments_terms a.query now).1 =
      Except.ok []) :
    (huntOne env now a).update =
      some { a with next_check := now + a.check_frequency }
    ∧ ({ a with next_check := now + a.check_frequency } : Appointment).status
        = a.status
    ∧ ({ a with next_check := now + a.check_frequency } : Appointment).term
        = a.term
    ∧ (huntOne env now a).outcome = CycleOutcome.noTerms
    ∧ CycleOutcome.noTerms.isFailure = false := by
  unfold huntOne
  split
  next hs =>
    rw [hs] at hsess
    cases hsess
  next s hs =>
    rw [hs] at hsess
    injection hsess with hsess
    subst hsess
    split
    next e calls heq =>
      rw [heq] at hterms
      simp at hterms
    next calls heq => exact ⟨rfl, rfl, rfl, rfl, rfl⟩
    next term r sc heq =>
      rw [heq] at hterms
      simp at hterms

theorem no_terms_resets_next_check_witness :
    noTermsEnv.sessions activeApp.account_email = some noTermsSession
    ∧ (noTermsSession.get_appointments_terms activeApp.query 1000).1 =
        Except.ok []
    ∧ ((huntOne noTermsEnv 1000 activeApp).update =
        some { activeApp with next_check := 1000 + activeApp.check_frequency }
       ∧ ({ activeApp with next_check := 1000 + activeApp.check_frequency } :
            Appointment).status = activeApp.status
       ∧ ({ activeApp with next_check := 1000 + activeApp.check_frequency } :
            Appointment).term = activeApp.term
       ∧ (huntOne noTermsEnv 1000 activeApp).outcome = CycleOutcome.noTerms
       ∧ CycleOutcome.noTerms.isFailure = false) :=
  ⟨rfl, rfl,
    no_terms_resets_next_check noTermsEnv 1000 activeApp noTermsSession
      rfl rfl⟩

/-! ### C4 -/

/-- C4: when the chosen slot's lock reveals related visits and rescheduling
is not allowed, the cycle persists the request with status Error and
`next_check = 0`, leaves `term` null, makes no confirm and no change-term
call for it, and ends its processing there (`continue`). -/
theorem policy_violation_sets_error
    (env : HunterEnv) (now : Nat) (a : Appointment)
    (session : LuxmedSession) (t : Term) (rest : List Term) (lock : Lock)
    (hsess : env.sessions a.account_email = some session)
    (hterms : (session.get_appointments_terms a.query now).1 =
      Except.ok (t :: rest))
    (hlock : (session.create_reservation_lock_term t).1 = Except.ok lock)
    (hrel : lock.relatedVisits ≠ [])
    (hallow : a.allow_rescheduling = false)
    (hterm : a.term = none) :
    (huntOne env now a).update =
      some { a with status := .error, next_check := 0 }
    ∧ ({ a with status := .error, next_check := 0 } : Appointment).term = none
    ∧ (huntOne env now a).calls = [PortalCall.search, PortalCall.lockTerm t]
    ∧ (∀ p, PortalCall.confirm p ∉ (huntOne env now a).calls)
    ∧ (∀ p, PortalCall.changeTerm p ∉ (huntOne env now a).calls)
    ∧ (huntOne env now a).outcome = CycleOutcome.policyViolation := by
  unfold huntOne
  split
  next hs =>
    rw [hs] at hsess
    cases hsess
  next s hs =>
    rw [hs] at hsess
    injection hsess with hsess
    subst hsess
    split
    next e calls heq =>
      rw [heq] at hterms
      simp at hterms
    next calls heq =>
      rw [heq] at hterms
      simp at hterms
    next term restTerms searchCalls heq =>
      rw [heq] at hterms
      simp only at hterms
      injection hterms with hterms
      injection hterms with ht hr
      subst ht
      have hsc : searchCalls = [PortalCall.search] := by
        have h2 := get_appointments_terms_snd s a.query now
        rw [heq] at h2
        exact h2
      subst hsc
      split
      next e lockCalls heq2 =>
        rw [heq2] at hlock
        simp at hlock
      next lock0 lockCalls heq2 =>
        rw [heq2] at hlock
        simp only at hlock
        injection hlock with hlock
        subst hlock
        have hlc : lockCalls = [PortalCall.lockTerm term] := by
          have h2 := create_reservation_lock_term_snd s term
          rw [heq2] at h2
          exact h2
        subst hlc
        have hlen : lock0.relatedVisits.length ≠ 0 := by
          intro h0
          exact hrel (List.length_eq_zero.mp h0)
        rw [if_pos hlen, hallow]
        exact ⟨rfl, hterm, rfl, by simp, by simp, rfl⟩

theorem policy_violation_sets_error_witness :
    heldEnv.sessions activeApp.account_email = some heldSession
    ∧ (heldSession.get_appointments_terms activeApp.query 1000).1 =
        Except.ok [termLate, termEarly]
    ∧ (heldSession.create_reservation_lock_term termLate).1 =
        Except.ok heldLock
    ∧ heldLock.relatedVisits ≠ []
    ∧ activeApp.allow_rescheduling = false
    ∧ activeApp.term = none
    ∧ ((huntOne heldEnv 1000 activeApp).update =
        some { activeApp with status := .error, next_check := 0 }
       ∧ ({ activeApp with status := .error, next_check := 0 } :
            Appointment).term = none
       ∧ (huntOne heldEnv 1000 activeApp).calls =
           [PortalCall.search, PortalCall.lockTerm termLate]
       ∧ (∀ p, PortalCall.confirm p ∉ (huntOne heldEnv 1000 activeApp).calls)
       ∧ (∀ p, PortalCall.changeTerm p ∉ (huntOne heldEnv 1000 activeApp).calls)
       ∧ (huntOne heldEnv 1000 activeApp).outcome =
           CycleOutcome.policyViolation) :=
  ⟨rfl, rfl, rfl, by decide, rfl, rfl,
    policy_violation_sets_error heldEnv 1000 activeApp heldSession termLate
      [termEarly] heldLock rfl rfl rfl (by decide) rfl rfl⟩

/-! ### C5 -/

/-- C5: when the chosen slot's lock reveals related visits and rescheduling
is allowed, the cycle POSTs the change-term request (not a confirm), with
both `existingReservationId` and `parentReservationId` equal to the first
related visit's `reservationId`; on a successful reply it persists status
Reserved, `next_check = 0` and the chosen slot snapshot as `term`. -/
theorem reschedule_uses_first_related_visit
    (env : HunterEnv) (now : Nat) (a : Appointment)
    (session : LuxmedSession) (t : Term) (rest : List Term) (lock : Lock)
    (v : RelatedVisit) (vs : List RelatedVisit) (w : Nat) (ws : List Nat)
    (r : ReservationResponse)
    (hsess : env.sessions a.account_email = some session)
    (hterms : (session.get_appointments_terms a.query now).1 =
      Except.ok (t :: rest))
    (hlock : (session.create_reservation_lock_term t).1 = Except.ok lock)
    (hrel : lock.relatedVisits = v :: vs)
    (hval : lock.valuations = w :: ws)
    (hallow : a.allow_rescheduling = true)
    (hreply : session.changeReply (mkChangeTermPayload t lock v w) =
      Except.ok r)
    (hrerr : r.errors = []) :
    (huntOne env now a).update =
      some { a with status := .reserved, next_check := 0, term := some t }
    ∧ (huntOne env now a).calls =
        [PortalCall.search, PortalCall.lockTerm t,
         PortalCall.changeTerm (mkChangeTermPayload t lock v w)]
    ∧ (mkChangeTermPayload t lock v w).existingReservationId =
        v.reservationId
    ∧ (mkChangeTermPayload t lock v w).parentReservationId = v.reservationId
    ∧ (∀ p, PortalCall.confirm p ∉ (huntOne env now a).calls)
    ∧ (huntOne env now a).outcome = CycleOutcome.reserved := by
  unfold huntOne
  split
  next hs =>
    rw [hs] at hsess
    cases hsess
  next s hs =>
    rw [hs] at hsess
    injection hsess with hsess
    subst hsess
    split
    next e calls heq =>
      rw [heq] at hterms
      simp at hterms
    next calls heq =>
      rw [heq] at hterms
      simp at hterms
    next term restTerms searchCalls heq =>
      rw [heq] at hterms
      simp only at hterms
      injection hterms with hterms
      injection hterms with ht hr
      subst ht
      have hsc : searchCalls = [PortalCall.search] := by
        have h2 := get_appointments_terms_snd s a.query now
        rw [heq] at h2
        exact h2
      subst hsc
      split
      next e lockCalls heq2 =>
        rw [heq2] at hlock
        simp at hlock
      next lock0 lockCalls heq2 =>
        rw [heq2] at hlock
        simp only at hlock
        injection hlock with hlock
        subst hlock
        have hlc : lockCalls = [PortalCall.lockTerm term] := by
          have h2 := create_reservation_lock_term_snd s term
          rw [heq2] at h2
          exact h2
        subst hlc
        have hlen : lock0.relatedVisits.length ≠ 0 := by
          rw [hrel]
          simp
        have hcond : ¬((!a.allow_rescheduling) = true) := by
          rw [hallow]
          simp
        rw [if_pos hlen, if_neg hcond]
        have hch : s.change_reservation term lock0 =
            (Except.ok r,
              [PortalCall.changeTerm (mkChangeTermPayload term lock0 v w)]) := by
          simp [LuxmedSession.change_reservation, hrel, hval, hreply, hrerr]
        split
        next e changeCalls heq3 =>
          rw [hch] at heq3
          simp at heq3
        next r0 changeCalls heq3 =>
          rw [hch] at heq3
          injection heq3 with h1 h2
          subst h2
          exact ⟨rfl, rfl, rfl, rfl, by simp, rfl⟩

theorem reschedule_uses_first_related_visit_witness :
    heldEnv.sessions reschedApp.account_email = some heldSession
    ∧ (heldSession.get_appointments_terms reschedApp.query 1000).1 =
        Except.ok [termLate, termEarly]
    ∧ (heldSession.create_reservation_lock_term termLate).1 =
        Except.ok heldLock
    ∧ heldLock.relatedVisits = [{ reservationId := 909 }]
    ∧ heldLock.valuations = [100]
    ∧ reschedApp.allow_rescheduling = true
    ∧ ((huntOne heldEnv 1000 reschedApp).update =
        some { reschedApp with status := .reserved, next_check := 0, term := some termLate }
       ∧ (huntOne heldEnv 1000 reschedApp).calls =
           [PortalCall.search, PortalCall.lockTerm termLate,
            PortalCall.changeTerm
              (mkChangeTermPayload termLate heldLock { reservationId := 909 } 100)]
       ∧ (mkChangeTermPayload termLate heldLock { reservationId := 909 }
            100).existingReservationId = 909
       ∧ (mkChangeTermPayload termLate heldLock { reservationId := 909 }
            100).parentReservationId = 909
       ∧ (∀ p, PortalCall.confirm p ∉ (huntOne heldEnv 1000 reschedApp).calls)
       ∧ (huntOne heldEnv 1000 reschedApp).outcome = CycleOutcome.reserved) :=
  ⟨rfl, rfl, rfl, rfl, rfl, rfl,
    reschedule_uses_first_related_visit heldEnv 1000 reschedApp heldSession
      termLate [termEarly] heldLock { reservationId := 909 } [] 100 [] {}
      rfl rfl rfl rfl rfl rfl rfl rfl⟩

/-! ### C6 -/

/-- C6: every outcome the per-appointment exception handler swallows
(missing session/credentials, search failure, lock failure,
confirm/reschedule failure) performs no `update_appointment` write, so the
request's persisted state — status and `next_check` included — is left
unchanged; and the batch keeps going: the processing record of
`hunt_appointments` covers exactly the scanned due requests, in order,
whatever the individual outcomes were. -/
theorem failures_leave_state_and_batch_continues :
    (∀ (env : HunterEnv) (now : Nat) (a : Appointment),
        (huntOne env now a).outcome.isFailure = true →
        (huntOne env now a).update = none)
    ∧ ∀ (env : HunterEnv) (now : Nat) (db : Database),
        ((hunt_appointments env now db).2).map HuntTraceEntry.appointmentId =
          (get_appointments_to_check db now).map Appointment.id := by
  constructor
  · intro env now a h
    rcases huntOne_spec env now a with ⟨h1, _⟩ | ⟨_, h2⟩ | ⟨_, h2⟩ | ⟨t, _, h2⟩
    · exact h1
    · rw [h2] at h
      simp [CycleOutcome.isFailure] at h
    · rw [h2] at h
      simp [CycleOutcome.isFailure] at h
    · rw [h2] at h
      simp [CycleOutcome.isFailure] at h
  · intro env now db
    exact huntLoop_trace_ids env now _ db

theorem failures_leave_state_and_batch_continues_witness :
    (huntOne emptyEnv 1000 activeApp).outcome.isFailure = true
    ∧ (huntOne emptyEnv 1000 activeApp).update = none :=
  ⟨by decide,
    failures_leave_state_and_batch_continues.1 emptyEnv 1000 activeApp
      (by decide)⟩

/-! ### C7 -/

/-- C7: along every state a persisted request can reach — created Active
with `term` unset, then mutated only by the cycle's writes on scanned
(non-Reserved) rows — `status == Reserved` holds iff `term` is non-null;
each of the three persisting transitions (no-slots recheck, Error,
Reserved) preserves the invariant. -/
theorem reachable_status_term_invariant (a : Appointment)
    (h : ReachableAppointment a) :
    (a.status = AppointmentStatus.reserved ↔ a.term ≠ none) := by
  induction h with
  | created a hstatus hterm =>
    rw [hstatus, hterm]
    constructor
    · intro hc
      cases hc
    · intro hc
      exact absurd rfl hc
  | checked a env now ha hdue a' hstep ih =>
    have hterm : a.term = none := by
      by_contra hc
      exact hdue (ih.mpr hc)
    rcases huntOne_spec env now a with
        ⟨h1, _⟩ | ⟨h1, _⟩ | ⟨h1, _⟩ | ⟨t, h1, _⟩ <;>
      rw [hstep] at h1
    · cases h1
    · injection h1 with h1
      subst h1
      simp [hterm, hdue]
    · injection h1 with h1
      subst h1
      simp [hterm]
    · injection h1 with h1
      subst h1
      simp

theorem reachable_status_term_invariant_witness :
    activeApp.status = AppointmentStatus.reserved ↔ activeApp.term ≠ none :=
  reachable_status_term_invariant activeApp
    (ReachableAppointment.created activeApp rfl rfl)

/-! ### C9 -/

/-- C9: the client-side filter admits exactly the slots satisfying the
conjunction of guards (doctor allow-list when non-empty, doctor blacklist,
facility allow-list when non-empty, inclusive time-of-day bounds when
given, inclusive date window); consequently a locked slot never has a
blacklisted doctor — even a chronologically earliest one — and always lies
inside the `startDate .. startDate + lookupTimeDays` window resolved from
the query; and concretely, with `lookupTimeDays = 14` and no explicit
start date, the slot 20 days out is discarded while the slot 5 days out is
the one selected and locked. -/
theorem slot_filter_characterization :
    (∀ (clinic_ids doctor_ids doctor_blacklist_ids : List Nat)
        (date_from date_to before_hour after_hour : Option Nat)
        (termsForDays : List (List Term)) (t : Term),
        t ∈ parse_visits clinic_ids doctor_ids doctor_blacklist_ids
            date_from date_to before_hour after_hour termsForDays ↔
          t ∈ termsForDays.flatten
          ∧ (doctor_ids = [] ∨ t.doctorId ∈ doctor_ids)
          ∧ t.doctorId ∉ doctor_blacklist_ids
          ∧ (clinic_ids = [] ∨ t.clinicGroupId ∈ clinic_ids)
          ∧ (∀ d, date_from = some d → d ≤ t.dateTimeFrom)
          ∧ (∀ d, date_to = some d → t.dateTimeFrom ≤ d)
          ∧ (∀ b, before_hour = some b → t.timeOfDay ≤ b)
          ∧ (∀ b, after_hour = some b → b ≤ t.timeOfDay))
    ∧ (∀ (env : HunterEnv) (now : Nat) (a : Appointment) (u : Term),
        PortalCall.lockTerm u ∈ (huntOne env now a).calls →
          u.doctorId ∉ a.query.doctor_blacklist_ids
          ∧ a.query.start_date.getD now ≤ u.dateTimeFrom
          ∧ u.dateTimeFrom ≤
              a.query.start_date.getD now
                + a.query.lookup_time_days * secondsPerDay)
    ∧ ((lookupSession.get_appointments_terms sampleQuery lookupToday).1 =
        Except.ok [termD5]
       ∧ PortalCall.lockTerm termD5 ∈
           (huntOne lookupEnv lookupToday lookupApp).calls
       ∧ PortalCall.lockTerm termD20 ∉
           (huntOne lookupEnv lookupToday lookupApp).calls) := by
  refine ⟨?_, ?_, rfl, by decide, by decide⟩
  · intro clinic_ids doctor_ids bl df dt bh ah days t
    rw [mem_parse_visits, keepTerm_iff]
  · intro env now a u hu
    rcases huntOne_calls_shape env now a with
      ⟨_, h1⟩ | ⟨s, _, _, h1⟩ | ⟨s, term, rest, tail, hs, hok, hcalls, htail⟩
    · rw [h1] at hu
      simp at hu
    · rw [h1] at hu
      simp at hu
    · have hu2 : u = term := by
        rw [hcalls] at hu
        rcases htail with rfl | ⟨p, rfl⟩ | ⟨p, rfl⟩ <;> simp at hu <;> exact hu
      subst hu2
      have hkeep := get_appointments_terms_ok_keep s a.query now
        (u :: rest) hok u (List.mem_cons_self u rest)
      have hk := (keepTerm_iff _ _ _ _ _ _ _ _).mp hkeep
      exact ⟨hk.2.1, hk.2.2.2.1 _ rfl, hk.2.2.2.2.1 _ rfl⟩

theorem slot_filter_characterization_witness :
    PortalCall.lockTerm termD5 ∈ (huntOne lookupEnv lookupToday lookupApp).calls
    ∧ (termD5.doctorId ∉ lookupApp.query.doctor_blacklist_ids
       ∧ lookupApp.query.start_date.getD lookupToday ≤ termD5.dateTimeFrom
       ∧ termD5.dateTimeFrom ≤
           lookupApp.query.start_date.getD lookupToday
             + lookupApp.query.lookup_time_days * secondsPerDay) :=
  ⟨by decide,
    slot_filter_characterization.2.1 lookupEnv lookupToday lookupApp termD5
      (by decide)⟩

/-! ### C10 -/

/-- C10: `change_reservation` fails with the no-related-visits
`LuxmedApiError` whenever the lock's `relatedVisits` list is empty or
absent — for every possible provider reply, and without issuing any
network call — and this error is unreachable from `hunt_appointments`,
whose cycle enters the reschedule path only when the lock's
`relatedVisits` list is non-empty. -/
theorem change_reservation_guard_unreachable :
    (∀ (session : LuxmedSession) (t : Term) (lock : Lock),
        lock.relatedVisits = [] →
          (session.change_reservation t lock).1 =
            Except.error ApiError.noRelatedVisits
          ∧ (session.change_reservation t lock).2 = [])
    ∧ ∀ (env : HunterEnv) (now : Nat) (a : Appointment),
        (huntOne env now a).outcome ≠
          CycleOutcome.reserveFailed ApiError.noRelatedVisits := by
  constructor
  · intro session t lock h
    refine ⟨?_, ?_⟩ <;>
    · unfold LuxmedSession.change_reservation
      split
      · rfl
      next visit vs heq =>
        rw [h] at heq
        cases heq
  · intro env now a
    unfold huntOne
    split
    · simp
    next s hs =>
      split
      next e calls heq => simp
      next calls heq => simp
      next term restTerms searchCalls heq =>
        split
        next e lockCalls heq2 => simp
        next lock0 lockCalls heq2 =>
          split
          next hlen =>
            split
            next => simp
            next hcond =>
              split
              next e changeCalls heq3 =>
                have hne := change_reservation_fst_no_guard s term lock0
                  (fun hnil => hlen (by rw [hnil]; rfl))
                rw [heq3] at hne
                simp at hne ⊢
                exact hne
              next r changeCalls heq3 => simp
          next hlen =>
            split
            next e confirmCalls heq3 =>
              have hne := create_reservation_fst_no_guard s term lock0
              rw [heq3] at hne
              simp at hne ⊢
              exact hne
            next r confirmCalls heq3 => simp

theorem change_reservation_guard_unreachable_witness :
    freeLock.relatedVisits = []
    ∧ ((confirmSession.change_reservation termEarly freeLock).1 =
        Except.error ApiError.noRelatedVisits
       ∧ (confirmSession.change_reservation termEarly freeLock).2 = []) :=
  ⟨rfl,
    change_reservation_guard_unreachable.1 confirmSession termEarly freeLock
      rfl⟩

end Luxmed
